import Mathlib

/-!
# Verification of the VESTA OSHA hazard-evidence retrieval and risk-scoring engine

Shallow embedding of `vesta/utils/osha_analysis/risk_scorer.py`,
`vesta/utils/osha_analysis/rag_retriever.py` and the corpus schema from
`vesta/utils/osha_analysis/indexer.py`.

Modelling conventions:
* Python numbers are modelled as exact rationals (`ℚ`); counts coming from
  SQL `COUNT` queries are modelled as `ℕ`.
* Python `round(x, 1)` is modelled as exact round-to-nearest at one decimal
  (`roundTo1`).  No statement below depends on the behaviour at exact
  midpoints, so the tie-breaking mode is immaterial.
* The SQLite corpus is modelled as a list of `Incident` rows; the external
  FTS5 engine (ranked lexical search) is an explicit parameter that either
  returns a ranked id list or signals a malformed query.
* SQLite LIKE wildcard matching is modelled as case-insensitive substring
  containment.
-/

namespace Vesta

/-- Python `round(x, 1)` over exact rationals: round to the nearest tenth. -/
def roundTo1 (q : ℚ) : ℚ := (round (10 * q) : ℤ) / 10

lemma roundTo1_mono : Monotone roundTo1 := by
  intro a b h
  unfold roundTo1
  have h1 : round (10 * a) ≤ round (10 * b) := by
    rw [round_eq, round_eq]
    exact Int.floor_le_floor (by linarith)
  have h2 : ((round (10 * a) : ℤ) : ℚ) ≤ ((round (10 * b) : ℤ) : ℚ) := by
    exact_mod_cast h1
  linarith

lemma roundTo1_tenth (k : ℤ) : roundTo1 ((k : ℚ) / 10) = (k : ℚ) / 10 := by
  unfold roundTo1
  rw [show (10 : ℚ) * ((k : ℚ) / 10) = (k : ℚ) by ring, round_intCast]

lemma roundTo1_idem (q : ℚ) : roundTo1 (roundTo1 q) = roundTo1 q :=
  roundTo1_tenth _

lemma roundTo1_int (n : ℤ) : roundTo1 ((n : ℚ)) = n := by
  have := roundTo1_tenth (10 * n)
  push_cast at this ⊢
  rw [show (10 : ℚ) * (n : ℚ) / 10 = (n : ℚ) by ring] at this
  exact this

lemma roundTo1_ofNat (n : ℕ) : roundTo1 ((n : ℚ)) = n := by
  exact_mod_cast roundTo1_int (n : ℤ)

/-! ## Hazard Scorer (`risk_scorer.compute_hazard_score`)

The Python function returns a pair `(final_score, score_components)`; the
four components of the dict and the final score are gathered in one
structure here. -/

structure HazardScore where
  final_score : ℚ
  frequency_score : ℚ
  fatality_score : ℚ
  severity_score : ℚ
  severe_case_score : ℚ
  deriving Repr, DecidableEq

/-- `compute_hazard_score` from `risk_scorer.py`: four components
(frequency capped by 500 incidents, fatality rate, severity capped at 90
days, serious-case rate), summed and clipped above at 100, every reported
number rounded to one decimal.  A zero frequency short-circuits to an
all-zero result. -/
def compute_hazard_score (frequency_count fatal_count : ℕ) (avg_dafw : ℚ)
    (severe_count : ℕ) : HazardScore :=
  if frequency_count = 0 then
    { final_score := 0, frequency_score := 0, fatality_score := 0,
      severity_score := 0, severe_case_score := 0 }
  else
    let frequency_score : ℚ := min ((frequency_count : ℚ) / 500) 1 * 25
    let fatality_rate : ℚ := (fatal_count : ℚ) / (frequency_count : ℚ)
    let fatality_score : ℚ := fatality_rate * 35
    let severity_score : ℚ := min (avg_dafw / 90) 1 * 25
    let severe_rate : ℚ := (severe_count : ℚ) / (frequency_count : ℚ)
    let severe_case_score : ℚ := severe_rate * 15
    let raw_score := frequency_score + fatality_score + severity_score + severe_case_score
    { final_score := roundTo1 (min raw_score 100),
      frequency_score := roundTo1 frequency_score,
      fatality_score := roundTo1 fatality_score,
      severity_score := roundTo1 severity_score,
      severe_case_score := roundTo1 severe_case_score }

/-- C5: whenever the frequency input is 0, `score()` returns final score 0 and
all four component scores 0, regardless of the other three inputs, bypassing
the component formulas. -/
theorem score_zero_frequency (fatal_count : ℕ) (avg_dafw : ℚ) (severe_count : ℕ) :
    compute_hazard_score 0 fatal_count avg_dafw severe_count =
      { final_score := 0, frequency_score := 0, fatality_score := 0,
        severity_score := 0, severe_case_score := 0 } :=
  rfl

/-- C1 (counterexample): the final score is not monotone in the frequency
input: raising the frequency from 1 to 2 with one fatality drops the score
from 35.1 to 17.6, because the fatality and serious-case rates have the
frequency in their denominator. -/
theorem score_not_monotone_in_frequency :
    ¬ ((compute_hazard_score 1 1 0 0).final_score ≤
        (compute_hazard_score 2 1 0 0).final_score) := by
  norm_num [compute_hazard_score, roundTo1, round_eq, min_def]

/-- C1 (amended): the final score is monotone non-decreasing in each of the
fatal-count, average-days-away and serious-count inputs, the others held
fixed; it is not monotone in the frequency input. -/
theorem score_monotone_nonfrequency (freq fatal fatal' sev sev' : ℕ)
    (avg avg' : ℚ) (hfat : fatal ≤ fatal') (havg : avg ≤ avg') (hsev : sev ≤ sev') :
    (compute_hazard_score freq fatal avg sev).final_score ≤
        (compute_hazard_score freq fatal' avg sev).final_score ∧
      (compute_hazard_score freq fatal avg sev).final_score ≤
        (compute_hazard_score freq fatal avg' sev).final_score ∧
      (compute_hazard_score freq fatal avg sev).final_score ≤
        (compute_hazard_score freq fatal avg sev').final_score := by
  unfold compute_hazard_score
  rcases eq_or_ne freq 0 with h0 | h0
  · simp [h0]
  · have hfq : (0 : ℚ) < (freq : ℚ) := by
      exact_mod_cast Nat.pos_of_ne_zero h0
    simp only [if_neg h0]
    have hfatQ : (fatal : ℚ) ≤ (fatal' : ℚ) := by exact_mod_cast hfat
    have hsevQ : (sev : ℚ) ≤ (sev' : ℚ) := by exact_mod_cast hsev
    refine ⟨roundTo1_mono ?_, roundTo1_mono ?_, roundTo1_mono ?_⟩
    · gcongr
    · gcongr
    · gcongr

/-- C1 (witness). -/
theorem score_monotone_nonfrequency_witness :
    (1 : ℕ) ≤ 2 ∧ (10 : ℚ) ≤ 20 ∧ (0 : ℕ) ≤ 3 ∧
      ((compute_hazard_score 5 1 10 0).final_score ≤
          (compute_hazard_score 5 2 10 0).final_score ∧
        (compute_hazard_score 5 1 10 0).final_score ≤
          (compute_hazard_score 5 1 20 0).final_score ∧
        (compute_hazard_score 5 1 10 0).final_score ≤
          (compute_hazard_score 5 1 10 3).final_score) :=
  ⟨by norm_num, by norm_num, by norm_num,
    score_monotone_nonfrequency 5 1 2 0 3 10 20 (by norm_num) (by norm_num) (by norm_num)⟩

/-- C2 (counterexample): with a fatal count exceeding the frequency count —
which the pure function accepts — the fatality component exceeds its stated
cap of 35: `score(1, 2, 0, 0)` has fatality component 70. -/
theorem score_cap_counterexample :
    ¬ ((compute_hazard_score 1 2 0 0).fatality_score ≤ 35) := by
  norm_num [compute_hazard_score, roundTo1, round_eq, min_def]

/-- C2 (amended): on the inputs the aggregation interface actually produces —
fatal and serious counts at most the frequency count, nonnegative average
days away — each component is at most its cap (25/35/25/15) and the final
score lies in [0, 100]. -/
theorem score_caps_in_domain (freq fatal sev : ℕ) (avg : ℚ)
    (hfat : fatal ≤ freq) (hsev : sev ≤ freq) (havg : 0 ≤ avg) :
    (compute_hazard_score freq fatal avg sev).frequency_score ≤ 25 ∧
      (compute_hazard_score freq fatal avg sev).fatality_score ≤ 35 ∧
      (compute_hazard_score freq fatal avg sev).severity_score ≤ 25 ∧
      (compute_hazard_score freq fatal avg sev).severe_case_score ≤ 15 ∧
      0 ≤ (compute_hazard_score freq fatal avg sev).final_score ∧
      (compute_hazard_score freq fatal avg sev).final_score ≤ 100 := by
  unfold compute_hazard_score
  rcases eq_or_ne freq 0 with h0 | h0
  · simp [h0]
  · have hfq : (0 : ℚ) < (freq : ℚ) := by
      exact_mod_cast Nat.pos_of_ne_zero h0
    have hfatQ : (fatal : ℚ) ≤ (freq : ℚ) := by exact_mod_cast hfat
    have hsevQ : (sev : ℚ) ≤ (freq : ℚ) := by exact_mod_cast hsev
    simp only [if_neg h0]
    have hfreqc : min ((freq : ℚ) / 500) 1 * 25 ≤ 25 := by
      have : min ((freq : ℚ) / 500) 1 ≤ 1 := min_le_right _ _
      nlinarith
    have hfreqc0 : 0 ≤ min ((freq : ℚ) / 500) 1 * 25 := by positivity
    have hfatc : (fatal : ℚ) / (freq : ℚ) * 35 ≤ 35 := by
      have : (fatal : ℚ) / (freq : ℚ) ≤ 1 := by
        rw [div_le_one hfq]; exact hfatQ
      nlinarith
    have hfatc0 : 0 ≤ (fatal : ℚ) / (freq : ℚ) * 35 := by positivity
    have hsevc : min (avg / 90) 1 * 25 ≤ 25 := by
      have : min (avg / 90) 1 ≤ 1 := min_le_right _ _
      nlinarith
    have hsevc0 : 0 ≤ min (avg / 90) 1 * 25 := by
      have : (0 : ℚ) ≤ min (avg / 90) 1 := le_min (by positivity) (by norm_num)
      nlinarith
    have hserc : (sev : ℚ) / (freq : ℚ) * 15 ≤ 15 := by
      have : (sev : ℚ) / (freq : ℚ) ≤ 1 := by
        rw [div_le_one hfq]; exact hsevQ
      nlinarith
    have hserc0 : 0 ≤ (sev : ℚ) / (freq : ℚ) * 15 := by positivity
    refine ⟨?_, ?_, ?_, ?_, ?_, ?_⟩
    · calc roundTo1 _ ≤ roundTo1 25 := roundTo1_mono hfreqc
        _ = 25 := by exact_mod_cast roundTo1_ofNat 25
    · calc roundTo1 _ ≤ roundTo1 35 := roundTo1_mono hfatc
        _ = 35 := by exact_mod_cast roundTo1_ofNat 35
    · calc roundTo1 _ ≤ roundTo1 25 := roundTo1_mono hsevc
        _ = 25 := by exact_mod_cast roundTo1_ofNat 25
    · calc roundTo1 _ ≤ roundTo1 15 := roundTo1_mono hserc
        _ = 15 := by exact_mod_cast roundTo1_ofNat 15
    · calc (0 : ℚ) = roundTo1 0 := by rw [show (0 : ℚ) = ((0 : ℕ) : ℚ) by norm_num, roundTo1_ofNat]
        _ ≤ roundTo1 _ := roundTo1_mono (le_min (by linarith) (by norm_num))
    · calc roundTo1 _ ≤ roundTo1 100 := roundTo1_mono (min_le_right _ _)
        _ = 100 := by exact_mod_cast roundTo1_ofNat 100

/-- C2 (witness). -/
theorem score_caps_in_domain_witness :
    (100 : ℕ) ≤ 500 ∧ (50 : ℕ) ≤ 500 ∧ (0 : ℚ) ≤ 45 ∧
      ((compute_hazard_score 500 100 45 50).frequency_score ≤ 25 ∧
        (compute_hazard_score 500 100 45 50).fatality_score ≤ 35 ∧
        (compute_hazard_score 500 100 45 50).severity_score ≤ 25 ∧
        (compute_hazard_score 500 100 45 50).severe_case_score ≤ 15 ∧
        0 ≤ (compute_hazard_score 500 100 45 50).final_score ∧
        (compute_hazard_score 500 100 45 50).final_score ≤ 100) :=
  ⟨by norm_num, by norm_num, by norm_num,
    score_caps_in_domain 500 100 50 45 (by norm_num) (by norm_num) (by norm_num)⟩

/-! ## Grades and recommendations (`risk_scorer.get_grade`, `get_recommendation`) -/

/-- `get_grade` from `risk_scorer.py`: letter grade and fixed explanation
sentence, the bands having closed upper bounds. -/
def get_grade (score : ℚ) : String × String :=
  if score ≤ 20 then
    ("A", "A: 0-20 risk range. Low risk site. Standard safety protocols sufficient.")
  else if score ≤ 40 then
    ("B", "B: 21-40 risk range. Moderate risk. Enhanced safety measures recommended.")
  else if score ≤ 60 then
    ("C", "C: 41-60 risk range. Elevated risk. Regular safety audits required.")
  else if score ≤ 80 then
    ("D", "D: 61-80 risk range. High-risk site. Immediate corrective action recommended.")
  else
    ("F", "F: 81-100 risk range. Critical risk. Site shutdown may be required until hazards are mitigated.")

/-- `get_recommendation` from `risk_scorer.py`: fixed recommendation sentence
per band. -/
def get_recommendation (score : ℚ) : String :=
  if score ≤ 20 then
    "Low-risk site. Standard safety protocols sufficient."
  else if score ≤ 40 then
    "Moderate-risk site. Enhanced safety measures recommended."
  else if score ≤ 60 then
    "Elevated-risk site. Regular safety audits and training required."
  else if score ≤ 80 then
    "High-risk site. Daily safety briefings required. Immediate corrective action needed."
  else
    "Critical-risk site. Consider site shutdown until hazards are mitigated. Emergency safety protocols required."

/-! ## Site Risk Aggregator (`risk_scorer.compute_site_risk`)

One registry entry carries the hazard id, label and category together with
the four aggregate counts that the source obtains for the category of the entry
from the external SQLite aggregation queries (`query_frequency`,
`query_fatality_count`, `query_avg_dafw`, `query_severe_count`); the
aggregation source is external to the core, so those four query results are
inputs of the embedding. -/

structure HazardEntry where
  hazard_id : String
  label : String
  category : String
  frequency_count : ℕ
  fatal_count : ℕ
  avg_dafw : ℚ
  severe_count : ℕ
  deriving Repr, DecidableEq

def scoreOf (e : HazardEntry) : HazardScore :=
  compute_hazard_score e.frequency_count e.fatal_count e.avg_dafw e.severe_count

/-- Python `round(x, 3)` over exact rationals. -/
def roundTo3 (q : ℚ) : ℚ := (round (1000 * q) : ℤ) / 1000

/-- One row of the breakdown list built inside `compute_site_risk`. -/
structure BreakdownRow where
  hazard_id : String
  label : String
  category : String
  frequency_count : ℕ
  fatal_count : ℕ
  fatality_rate : ℚ
  avg_dafw : ℚ
  severe_rate : ℚ
  final_score : ℚ
  score_components : HazardScore
  deriving Repr, DecidableEq

def mkRow (e : HazardEntry) : BreakdownRow :=
  { hazard_id := e.hazard_id
    label := e.label
    category := e.category
    frequency_count := e.frequency_count
    fatal_count := e.fatal_count
    fatality_rate :=
      roundTo3 (if 0 < e.frequency_count then
        (e.fatal_count : ℚ) / (e.frequency_count : ℚ) else 0)
    avg_dafw := roundTo1 e.avg_dafw
    severe_rate :=
      roundTo3 (if 0 < e.frequency_count then
        (e.severe_count : ℚ) / (e.frequency_count : ℚ) else 0)
    final_score := (scoreOf e).final_score
    score_components := scoreOf e }

/-- Descending order on rationals, as `sorted(xs, reverse=True)`. -/
def descQ (a b : ℚ) : Prop := b ≤ a

instance : DecidableRel descQ := fun a b => inferInstanceAs (Decidable (b ≤ a))

instance : IsTotal ℚ descQ := ⟨fun a b => le_total b a⟩

instance : IsTrans ℚ descQ := ⟨fun _ _ _ h1 h2 => le_trans h2 h1⟩

/-- Descending order on breakdown rows by final score, as
`breakdown.sort(key=..., reverse=True)`. -/
def rowDesc (a b : BreakdownRow) : Prop := b.final_score ≤ a.final_score

instance : DecidableRel rowDesc := fun a b =>
  inferInstanceAs (Decidable (b.final_score ≤ a.final_score))

instance : IsTotal BreakdownRow rowDesc := ⟨fun a b => le_total b.final_score a.final_score⟩

instance : IsTrans BreakdownRow rowDesc := ⟨fun _ _ _ h1 h2 => le_trans h2 h1⟩

def hazardScores (registry : List HazardEntry) : List ℚ :=
  registry.map fun e => (scoreOf e).final_score

/-- The composite-score case split of `compute_site_risk`, before the final
rounding: no hazards give 0, one hazard gives its score, two or more give
`highest * 0.6 + mean(others) * 0.4` over the descending-sorted scores. -/
def siteCompositeRaw : List ℚ → ℚ
  | [] => 0
  | [s] => s
  | a :: b :: rest =>
    match List.insertionSort descQ (a :: b :: rest) with
    | [] => 0
    | highest :: others =>
      highest * 0.6 + (if others.isEmpty then 0 else others.sum / (others.length : ℚ)) * 0.4

structure SiteRiskResult where
  score : ℚ
  grade : String
  breakdown : List BreakdownRow
  top_5_hazards : List BreakdownRow
  top_concern : String
  recommendation : String
  grade_explanation : String
  deriving Repr, DecidableEq

/-- `compute_site_risk` from `risk_scorer.py`, with the four per-category
aggregates carried by each registry entry (the SQLite aggregation source is
external).  The formatted `top_concern_stats` display string is elided. -/
def compute_site_risk (registry : List HazardEntry) : SiteRiskResult :=
  let breakdown := List.insertionSort rowDesc (registry.map mkRow)
  { score := roundTo1 (siteCompositeRaw (hazardScores registry))
    grade := (get_grade (roundTo1 (siteCompositeRaw (hazardScores registry)))).1
    breakdown := breakdown
    top_5_hazards := breakdown.take 5
    top_concern := match breakdown with
      | [] => "None"
      | r :: _ => r.label
    recommendation := get_recommendation (roundTo1 (siteCompositeRaw (hazardScores registry)))
    grade_explanation := (get_grade (roundTo1 (siteCompositeRaw (hazardScores registry)))).2 }

lemma final_score_roundTo1_fixed (freq fatal : ℕ) (avg : ℚ) (sev : ℕ) :
    roundTo1 ((compute_hazard_score freq fatal avg sev).final_score) =
      (compute_hazard_score freq fatal avg sev).final_score := by
  unfold compute_hazard_score
  rcases eq_or_ne freq 0 with h0 | h0
  · subst h0
    have h1 : roundTo1 (((0 : ℕ) : ℚ)) = ((0 : ℕ) : ℚ) := roundTo1_ofNat 0
    simpa using h1
  · simp only [if_neg h0]
    exact roundTo1_idem _

lemma hazardScore_roundTo1_fixed {registry : List HazardEntry} {s : ℚ}
    (hs : s ∈ hazardScores registry) : roundTo1 s = s := by
  rcases List.mem_map.1 hs with ⟨e, _, rfl⟩
  exact final_score_roundTo1_fixed _ _ _ _

/-- Facts about the head/tail of the descending-sorted score list. -/
lemma sorted_scores_facts (scores : List ℚ) (h : ℚ) (t : List ℚ)
    (hs : List.insertionSort descQ scores = h :: t) :
    h ∈ scores ∧ (∀ x ∈ t, x ≤ h) ∧ h + t.sum = scores.sum ∧
      t.length + 1 = scores.length ∧ ∀ x ∈ t, x ∈ scores := by
  have hperm : (h :: t).Perm scores := by
    rw [← hs]; exact List.perm_insertionSort descQ scores
  have hsorted : List.Sorted descQ (h :: t) := by
    rw [← hs]; exact List.sorted_insertionSort descQ scores
  refine ⟨hperm.mem_iff.1 (List.mem_cons_self h t), ?_, ?_, ?_, ?_⟩
  · intro x hx
    exact List.rel_of_sorted_cons hsorted x hx
  · have := hperm.sum_eq
    simpa using this
  · have := hperm.length_eq
    simpa using this
  · intro x hx
    exact hperm.mem_iff.1 (List.mem_cons_of_mem _ hx)

/-- C3 (counterexample): for three hazards scoring 50, 12.5 and 12.6, the
code returns composite 35.0, the rounding of the exact dominance-formula
value 35.02 — so the composite does not equal `highest*0.6 + mean(rest)*0.4`
itself. -/
theorem site_composite_rounding_counterexample :
    hazardScores
        [⟨"h1", "Heights", "Fall Hazard", 500, 0, 90, 0⟩,
          ⟨"h2", "Wiring", "Electrical Hazard", 250, 0, 0, 0⟩,
          ⟨"h3", "Debris", "Slip Hazard", 252, 0, 0, 0⟩] = [50, 12.5, 12.6] ∧
      (compute_site_risk
          [⟨"h1", "Heights", "Fall Hazard", 500, 0, 90, 0⟩,
            ⟨"h2", "Wiring", "Electrical Hazard", 250, 0, 0, 0⟩,
            ⟨"h3", "Debris", "Slip Hazard", 252, 0, 0, 0⟩]).score = 35.0 ∧
      (50 : ℚ) * 0.6 + ((12.6 + 12.5) / 2) * 0.4 = 35.02 ∧ (35.0 : ℚ) ≠ 35.02 := by
  refine ⟨?_, ?_, by norm_num, by norm_num⟩
  · norm_num [hazardScores, scoreOf, compute_hazard_score, roundTo1, round_eq, min_def]
  · norm_num [compute_site_risk, hazardScores, scoreOf, compute_hazard_score,
      siteCompositeRaw, roundTo1, round_eq, min_def, List.insertionSort,
      List.orderedInsert, descQ]

/-- C3 (amended): `assess(registry)` computes its composite by cases on the
number of hazards: 0 hazards give composite 0, empty breakdown and grade A;
exactly 1 hazard gives the final score of that hazard; 2 or more hazards give
`highest*0.6 + mean(remaining)*0.4` rounded to one decimal. -/
theorem site_composite_cases (registry : List HazardEntry) (M : ℚ) :
    (registry = [] →
        (compute_site_risk registry).score = 0 ∧
          (compute_site_risk registry).breakdown = [] ∧
          (compute_site_risk registry).grade = "A") ∧
      (∀ e : HazardEntry, registry = [e] →
        (compute_site_risk registry).score = (scoreOf e).final_score) ∧
      (2 ≤ registry.length → M ∈ hazardScores registry →
        (∀ s ∈ hazardScores registry, s ≤ M) →
        (compute_site_risk registry).score =
          roundTo1 (M * 0.6 +
            (((hazardScores registry).sum - M) / ((registry.length : ℚ) - 1)) * 0.4)) := by
  refine ⟨?_, ?_, ?_⟩
  · rintro rfl
    norm_num [compute_site_risk, hazardScores, siteCompositeRaw, roundTo1,
      round_eq, get_grade, List.insertionSort]
  · rintro e rfl
    show roundTo1 (siteCompositeRaw [(scoreOf e).final_score]) = (scoreOf e).final_score
    rw [show siteCompositeRaw [(scoreOf e).final_score] = (scoreOf e).final_score from rfl]
    exact final_score_roundTo1_fixed e.frequency_count e.fatal_count e.avg_dafw e.severe_count
  · intro hlen hMmem hub
    have hlen2 : 2 ≤ (hazardScores registry).length := by
      simpa [hazardScores] using hlen
    match hscores : hazardScores registry, hlen2 with
    | a :: b :: rest, _ =>
    rw [hscores] at hMmem hub
    rcases hsort : List.insertionSort descQ (a :: b :: rest) with _ | ⟨h, t⟩
    · have := List.length_insertionSort descQ (a :: b :: rest)
      rw [hsort] at this
      simp at this
    obtain ⟨hmem, hrel, hsum, hlent, _⟩ := sorted_scores_facts _ h t hsort
    rcases t with _ | ⟨x, xs⟩
    · simp at hlent
    have hraw : siteCompositeRaw (a :: b :: rest) =
        h * 0.6 + ((x :: xs).sum / ((x :: xs).length : ℚ)) * 0.4 := by
      rw [siteCompositeRaw, hsort]; rfl
    have hhM : h = M := by
      have h1 : h ≤ M := hub h hmem
      have h2 : M ≤ h := by
        have : M ∈ h :: x :: xs := by
          have hperm : (h :: x :: xs).Perm (a :: b :: rest) := by
            rw [← hsort]; exact List.perm_insertionSort descQ _
          exact hperm.mem_iff.2 hMmem
        rcases List.mem_cons.1 this with h' | h'
        · exact le_of_eq h'
        · exact hrel M h'
      linarith
    have hsum' : (x :: xs).sum = (a :: b :: rest).sum - M := by
      rw [← hhM]; linarith
    have hlen' : (((x :: xs).length : ℚ)) = ((registry.length : ℚ)) - 1 := by
      have hml : (hazardScores registry).length = registry.length := by
        simp [hazardScores]
      rw [hscores] at hml
      have : (x :: xs).length + 1 = registry.length := by rw [← hml]; exact hlent
      have := congrArg (fun n : ℕ => (n : ℚ)) this
      push_cast at this
      linarith
    show roundTo1 (siteCompositeRaw (hazardScores registry)) = _
    rw [hscores, hraw, hhM, hsum', hlen']

/-- C3 (witness). -/
theorem site_composite_cases_witness :
    ((compute_site_risk ([] : List HazardEntry)).score = 0 ∧
        (compute_site_risk ([] : List HazardEntry)).breakdown = [] ∧
        (compute_site_risk ([] : List HazardEntry)).grade = "A") ∧
      (compute_site_risk
          [⟨"h1", "Heights", "Fall Hazard", 500, 0, 90, 0⟩,
            ⟨"h2", "Wiring", "Electrical Hazard", 250, 0, 0, 0⟩]).score =
        roundTo1 ((50 : ℚ) * 0.6 +
          (((hazardScores
                [⟨"h1", "Heights", "Fall Hazard", 500, 0, 90, 0⟩,
                  ⟨"h2", "Wiring", "Electrical Hazard", 250, 0, 0, 0⟩]).sum - 50) /
              ((([⟨"h1", "Heights", "Fall Hazard", 500, 0, 90, 0⟩,
                    ⟨"h2", "Wiring", "Electrical Hazard", 250, 0, 0, 0⟩] :
                  List HazardEntry).length : ℚ) - 1)) * 0.4) := by
  have hH : hazardScores
      [⟨"h1", "Heights", "Fall Hazard", 500, 0, 90, 0⟩,
        ⟨"h2", "Wiring", "Electrical Hazard", 250, 0, 0, 0⟩] = [50, 12.5] := by
    norm_num [hazardScores, scoreOf, compute_hazard_score, roundTo1, round_eq, min_def]
  refine ⟨(site_composite_cases [] 0).1 rfl, ?_⟩
  refine (site_composite_cases _ 50).2.2 (by simp) ?_ ?_
  · rw [hH]; norm_num
  · rw [hH]
    intro s hs
    rcases List.mem_cons.1 hs with rfl | hs
    · norm_num
    · rcases List.mem_cons.1 hs with rfl | hs
      · norm_num
      · simp at hs

/-- C4: the grade on a composite score in [0,100] is given by bands with
closed upper bounds — [0,20] grade A, (20,40] grade B, (40,60] grade C,
(60,80] grade D, (80,100] grade F — and each grade carries a fixed
explanation sentence and a fixed recommendation sentence. -/
theorem grade_bands (s : ℚ) (h0 : 0 ≤ s) (h100 : s ≤ 100) :
    (s ≤ 20 →
        get_grade s =
            ("A", "A: 0-20 risk range. Low risk site. Standard safety protocols sufficient.") ∧
          get_recommendation s = "Low-risk site. Standard safety protocols sufficient.") ∧
      (20 < s → s ≤ 40 →
        get_grade s =
            ("B", "B: 21-40 risk range. Moderate risk. Enhanced safety measures recommended.") ∧
          get_recommendation s = "Moderate-risk site. Enhanced safety measures recommended.") ∧
      (40 < s → s ≤ 60 →
        get_grade s =
            ("C", "C: 41-60 risk range. Elevated risk. Regular safety audits required.") ∧
          get_recommendation s = "Elevated-risk site. Regular safety audits and training required.") ∧
      (60 < s → s ≤ 80 →
        get_grade s =
            ("D", "D: 61-80 risk range. High-risk site. Immediate corrective action recommended.") ∧
          get_recommendation s =
            "High-risk site. Daily safety briefings required. Immediate corrective action needed.") ∧
      (80 < s →
        get_grade s =
            ("F", "F: 81-100 risk range. Critical risk. Site shutdown may be required until hazards are mitigated.") ∧
          get_recommendation s =
            "Critical-risk site. Consider site shutdown until hazards are mitigated. Emergency safety protocols required.") := by
  refine ⟨?_, ?_, ?_, ?_, ?_⟩
  · intro h
    simp [get_grade, get_recommendation, h]
  · intro h1 h2
    simp [get_grade, get_recommendation, h2, not_le.mpr h1]
  · intro h1 h2
    simp [get_grade, get_recommendation, h2, not_le.mpr h1,
      not_le.mpr (show (20 : ℚ) < s by linarith)]
  · intro h1 h2
    simp [get_grade, get_recommendation, h2, not_le.mpr h1,
      not_le.mpr (show (20 : ℚ) < s by linarith),
      not_le.mpr (show (40 : ℚ) < s by linarith)]
  · intro h1
    simp [get_grade, get_recommendation, not_le.mpr h1,
      not_le.mpr (show (20 : ℚ) < s by linarith),
      not_le.mpr (show (40 : ℚ) < s by linarith),
      not_le.mpr (show (60 : ℚ) < s by linarith)]

/-- C4 (witness): the exact boundary behaviour 20.0 to A, 20.1 to B,
80.0 to D, 80.1 to F. -/
theorem grade_bands_witness :
    (get_grade 20 =
        ("A", "A: 0-20 risk range. Low risk site. Standard safety protocols sufficient.") ∧
      get_recommendation 20 = "Low-risk site. Standard safety protocols sufficient.") ∧
      (get_grade 20.1 =
          ("B", "B: 21-40 risk range. Moderate risk. Enhanced safety measures recommended.") ∧
        get_recommendation 20.1 = "Moderate-risk site. Enhanced safety measures recommended.") ∧
      (get_grade 80 =
          ("D", "D: 61-80 risk range. High-risk site. Immediate corrective action recommended.") ∧
        get_recommendation 80 =
          "High-risk site. Daily safety briefings required. Immediate corrective action needed.") ∧
      (get_grade 80.1 =
          ("F", "F: 81-100 risk range. Critical risk. Site shutdown may be required until hazards are mitigated.") ∧
        get_recommendation 80.1 =
          "Critical-risk site. Consider site shutdown until hazards are mitigated. Emergency safety protocols required.") :=
  ⟨(grade_bands 20 (by norm_num) (by norm_num)).1 (by norm_num),
    (grade_bands 20.1 (by norm_num) (by norm_num)).2.1 (by norm_num) (by norm_num),
    (grade_bands 80 (by norm_num) (by norm_num)).2.2.2.1 (by norm_num) (by norm_num),
    (grade_bands 80.1 (by norm_num) (by norm_num)).2.2.2.2 (by norm_num)⟩

lemma siteCompositeRaw_bounds (scores : List ℚ) (m M : ℚ)
    (hMmem : M ∈ scores) (hub : ∀ s ∈ scores, s ≤ M)
    (hmmem : m ∈ scores) (hlb : ∀ s ∈ scores, m ≤ s) :
    m ≤ siteCompositeRaw scores ∧ siteCompositeRaw scores ≤ M := by
  match scores, hMmem with
  | [s], _ =>
    have h1 := hub s (by simp)
    have h2 := hlb s (by simp)
    constructor <;> simpa [siteCompositeRaw]
  | a :: b :: rest, _ =>
    rcases hsort : List.insertionSort descQ (a :: b :: rest) with _ | ⟨h, t⟩
    · have := List.length_insertionSort descQ (a :: b :: rest)
      rw [hsort] at this
      simp at this
    obtain ⟨hmem, _, _, hlent, hsub⟩ := sorted_scores_facts _ h t hsort
    rcases t with _ | ⟨x, xs⟩
    · simp at hlent
    have hraw : siteCompositeRaw (a :: b :: rest) =
        h * 0.6 + ((x :: xs).sum / ((x :: xs).length : ℚ)) * 0.4 := by
      rw [siteCompositeRaw, hsort]; rfl
    have hlpos : (0 : ℚ) < ((x :: xs).length : ℚ) := by
      have : 0 < (x :: xs).length := by simp
      exact_mod_cast this
    have hsumub : (x :: xs).sum ≤ ((x :: xs).length : ℚ) * M := by
      have := List.sum_le_card_nsmul (x :: xs) M (fun y hy => hub y (hsub y hy))
      simpa [nsmul_eq_mul] using this
    have hsumlb : ((x :: xs).length : ℚ) * m ≤ (x :: xs).sum := by
      have := List.card_nsmul_le_sum (x :: xs) m (fun y hy => hlb y (hsub y hy))
      simpa [nsmul_eq_mul] using this
    have hmeanub : (x :: xs).sum / ((x :: xs).length : ℚ) ≤ M := by
      rw [div_le_iff hlpos]; linarith
    have hmeanlb : m ≤ (x :: xs).sum / ((x :: xs).length : ℚ) := by
      rw [le_div_iff hlpos]; linarith
    have hhub : h ≤ M := hub h hmem
    have hhlb : m ≤ h := hlb h hmem
    rw [hraw]
    constructor <;> nlinarith

/-- C10: for a non-empty hazard registry, the composite site score lies
between the minimum and the maximum final hazard score of the breakdown —
a site is never graded worse than its single worst hazard alone. -/
theorem site_score_between_min_max (registry : List HazardEntry) (m M : ℚ)
    (hMmem : M ∈ hazardScores registry) (hub : ∀ s ∈ hazardScores registry, s ≤ M)
    (hmmem : m ∈ hazardScores registry) (hlb : ∀ s ∈ hazardScores registry, m ≤ s) :
    m ≤ (compute_site_risk registry).score ∧ (compute_site_risk registry).score ≤ M := by
  obtain ⟨hb1, hb2⟩ := siteCompositeRaw_bounds (hazardScores registry) m M hMmem hub hmmem hlb
  have hm : roundTo1 m = m := hazardScore_roundTo1_fixed hmmem
  have hM : roundTo1 M = M := hazardScore_roundTo1_fixed hMmem
  constructor
  · calc m = roundTo1 m := hm.symm
      _ ≤ roundTo1 (siteCompositeRaw (hazardScores registry)) := roundTo1_mono hb1
      _ = (compute_site_risk registry).score := rfl
  · calc (compute_site_risk registry).score
        = roundTo1 (siteCompositeRaw (hazardScores registry)) := rfl
      _ ≤ roundTo1 M := roundTo1_mono hb2
      _ = M := hM

/-- C10 (witness). -/
theorem site_score_between_min_max_witness :
    (12.5 : ℚ) ≤ (compute_site_risk
        [⟨"h1", "Heights", "Fall Hazard", 500, 0, 90, 0⟩,
          ⟨"h2", "Wiring", "Electrical Hazard", 250, 0, 0, 0⟩]).score ∧
      (compute_site_risk
          [⟨"h1", "Heights", "Fall Hazard", 500, 0, 90, 0⟩,
            ⟨"h2", "Wiring", "Electrical Hazard", 250, 0, 0, 0⟩]).score ≤ 50 := by
  have hH : hazardScores
      [⟨"h1", "Heights", "Fall Hazard", 500, 0, 90, 0⟩,
        ⟨"h2", "Wiring", "Electrical Hazard", 250, 0, 0, 0⟩] = [50, 12.5] := by
    norm_num [hazardScores, scoreOf, compute_hazard_score, roundTo1, round_eq, min_def]
  refine site_score_between_min_max _ 12.5 50 ?_ ?_ ?_ ?_ <;> rw [hH]
  · norm_num
  · intro s hs
    rcases List.mem_cons.1 hs with rfl | hs
    · norm_num
    · rcases List.mem_cons.1 hs with rfl | hs
      · norm_num
      · simp at hs
  · norm_num
  · intro s hs
    rcases List.mem_cons.1 hs with rfl | hs
    · norm_num
    · rcases List.mem_cons.1 hs with rfl | hs
      · norm_num
      · simp at hs

/-! ## Corpus model and LIKE matching (`rag_retriever.py`, `indexer.py`)

An `Incident` row carries the columns of the `incidents` table that the
retrieval logic reads (columns that are selected but never inspected by any
logic — establishment name, city, state, naics code, incident date, type and
job description — are elided).  Text columns are `String`s; the indexer
loads `dafw_num_away` and `djtr_num_tr` with `safe_int_zero`, so they are
`ℕ` here, and `incident_outcome` with `safe_int`, so it is an `Option ℕ`. -/

structure Incident where
  id : ℕ
  year_filing_for : ℕ
  incident_outcome : Option ℕ
  dafw_num_away : ℕ
  djtr_num_tr : ℕ
  nar_what_happened : String
  nar_before_incident : String
  incident_location : String
  nar_injury_illness : String
  nar_object_substance : String
  incident_description : String
  event_title_pred : String
  source_title_pred : String
  nature_title_pred : String
  part_title_pred : String
  deriving Repr, DecidableEq

/-- Python lowercasing, `str.lower` (ASCII case folding, which is all the
fixed keywords of the source need). -/
def lowerStr (s : String) : String := ⟨s.data.map Char.toLower⟩

/-- Python `needle in haystack` substring containment. -/
def strContains (s t : String) : Bool := decide (t.data <:+: s.data)

/-- SQLite LIKE wildcard matching of a pattern against a field:
case-insensitive substring containment. -/
def sqlLike (field pat : String) : Bool := strContains (lowerStr field) (lowerStr pat)

/-- Column lookup for predicate clauses, by SQL column name. -/
def getField (r : Incident) : String → String
  | "event_title_pred" => r.event_title_pred
  | "source_title_pred" => r.source_title_pred
  | "nar_what_happened" => r.nar_what_happened
  | "nar_before_incident" => r.nar_before_incident
  | "incident_location" => r.incident_location
  | "nar_injury_illness" => r.nar_injury_illness
  | "nar_object_substance" => r.nar_object_substance
  | "incident_description" => r.incident_description
  | "nature_title_pred" => r.nature_title_pred
  | _ => ""

/-- One LIKE clause (column and substring pattern) of a category expansion. -/
structure LikeClause where
  field : String
  pat : String
  deriving Repr, DecidableEq

def matchesClause (r : Incident) (c : LikeClause) : Bool := sqlLike (getField r c.field) c.pat

/-- `get_category_expansion` from `rag_retriever.py`: additional search
clauses per hazard category; `None` and any unmatched category give the
empty list. -/
def get_category_expansion (category : Option String) : List LikeClause :=
  match category with
  | none => []
  | some category =>
    let c := lowerStr category
    if strContains c "fall" then
      [⟨"event_title_pred", "fall"⟩, ⟨"source_title_pred", "ladder"⟩,
        ⟨"source_title_pred", "scaffold"⟩, ⟨"source_title_pred", "roof"⟩]
    else if strContains c "electric" then
      [⟨"event_title_pred", "contact with electric"⟩,
        ⟨"event_title_pred", "contact with wiring"⟩,
        ⟨"source_title_pred", "electric"⟩, ⟨"source_title_pred", "wiring"⟩,
        ⟨"source_title_pred", "power line"⟩,
        ⟨"nar_what_happened", "electrocuted"⟩,
        ⟨"nar_what_happened", "electric shock"⟩]
    else if strContains c "struck" || strContains c "hit" then
      [⟨"event_title_pred", "struck"⟩, ⟨"event_title_pred", "hit"⟩]
    else if strContains c "caught" || strContains c "compress" then
      [⟨"event_title_pred", "caught"⟩, ⟨"event_title_pred", "compress"⟩]
    else if strContains c "chemical" then
      [⟨"event_title_pred", "expos"⟩, ⟨"source_title_pred", "chemical"⟩]
    else if strContains c "slip" || strContains c "trip" then
      [⟨"event_title_pred", "slip"⟩, ⟨"event_title_pred", "trip"⟩,
        ⟨"event_title_pred", "same level"⟩]
    else
      []

/-- A SQL boolean condition over `LIKE` clauses, as produced by
`risk_scorer.get_category_filter`. -/
inductive SqlCond where
  | like (field pat : String)
  | disj (a b : SqlCond)
  | conj (a b : SqlCond)
  deriving Repr, DecidableEq

/-- `get_category_filter` from `risk_scorer.py`: the category-to-predicate
branch chain used by the aggregation queries, with a passthrough default
matching the raw category string against `event_title_pred`. -/
def get_category_filter (category : String) : SqlCond :=
  let c := lowerStr category
  if strContains c "fall" then
    .like "event_title_pred" "fall"
  else if strContains c "electric" then
    .disj (.like "event_title_pred" "contact with electric")
      (.disj (.like "event_title_pred" "contact with wiring")
        (.disj (.like "source_title_pred" "electric")
          (.disj (.like "source_title_pred" "wiring")
            (.disj (.like "source_title_pred" "power line")
              (.disj (.like "nar_what_happened" "electrocuted")
                (.like "nar_what_happened" "electric shock"))))))
  else if strContains c "struck" then
    .like "event_title_pred" "struck"
  else if strContains c "caught" || strContains c "compress" then
    .disj (.like "event_title_pred" "caught") (.like "event_title_pred" "compress")
  else if strContains c "chemical" then
    .conj (.like "event_title_pred" "expos")
      (.disj (.like "source_title_pred" "chemical") (.like "source_title_pred" "toxic"))
  else if strContains c "slip" || strContains c "trip" then
    .disj (.like "event_title_pred" "fall on same level")
      (.disj (.like "event_title_pred" "slip") (.like "event_title_pred" "trip"))
  else if strContains c "fire" then
    .disj (.like "event_title_pred" "fire")
      (.disj (.like "event_title_pred" "explosion") (.like "event_title_pred" "burn"))
  else
    .like "event_title_pred" category

/-- `format_outcome` from `rag_retriever.py`. -/
def format_outcome (incident_outcome : Option ℕ) (dafw_num_away djtr_num_tr : ℕ) : String :=
  if incident_outcome = some 1 then "FATAL"
  else if incident_outcome = some 2 then
    if 0 < dafw_num_away then toString dafw_num_away ++ " days away from work"
    else "Days away from work"
  else if incident_outcome = some 3 then
    if 0 < djtr_num_tr then toString djtr_num_tr ++ " days job transfer/restriction"
    else "Job transfer/restriction"
  else if incident_outcome = some 4 then "Other recordable case"
  else "Unknown"

/-- Python `label.lower().strip().split()`: split on whitespace runs. -/
def splitWSAux : List Char → List Char → List String
  | [], acc => if acc.isEmpty then [] else [String.mk acc.reverse]
  | c :: cs, acc =>
    if c = ' ' then
      if acc.isEmpty then splitWSAux cs []
      else String.mk acc.reverse :: splitWSAux cs []
    else splitWSAux cs (c :: acc)

/-- `build_fts_query` from `rag_retriever.py`: lowercase, split into terms,
suffix each with `*` for prefix matching and join with ` OR `; an empty term
list falls back to the raw label. -/
def build_fts_query (hazard_label : String) : String :=
  let terms := splitWSAux (lowerStr hazard_label).data []
  let query_terms := terms.map (fun t => t ++ "*")
  if query_terms.isEmpty then hazard_label else String.intercalate " OR " query_terms

/-- The nine columns indexed by the `incidents_fts` FTS5 virtual table
(`indexer.create_database`). -/
def ftsIndexedFields : List String :=
  ["nar_what_happened", "nar_before_incident", "incident_location",
    "nar_injury_illness", "nar_object_substance", "incident_description",
    "event_title_pred", "source_title_pred", "nature_title_pred"]

/-- The six columns of the `LIKE` fallback query that replaces a failed FTS5
query (`retrieve_narratives`, step 1 exception handler). -/
def fallbackFields : List String :=
  ["nar_what_happened", "nar_before_incident", "incident_location",
    "nar_injury_illness", "nar_object_substance", "incident_description"]

def fallbackMatch (r : Incident) (hazard_label : String) : Bool :=
  fallbackFields.any (fun f => sqlLike (getField r f) hazard_label)

/-- Step 1 of `retrieve_narratives`: the FTS5 candidate pass.  The external
engine (`ftsSearch`) takes the query string and the `LIMIT` and either
returns the ranked rowid list or signals a malformed query
(`sqlite3.OperationalError`), in which case the pass degrades locally to the
substring fallback over `fallbackFields` with the same `k * 3` cap. -/
def ftsPass (incidents : List Incident) (ftsSearch : String → ℕ → Except Unit (List ℕ))
    (hazard_label : String) (k : ℕ) : List ℕ :=
  match ftsSearch (build_fts_query hazard_label) (k * 3) with
  | .ok ids => ids
  | .error _ =>
    ((incidents.filter (fun r => fallbackMatch r hazard_label)).take (k * 3)).map
      (fun r => r.id)

/-- Step 2 of `retrieve_narratives`: `LIKE` matches of the label against the
event-type and source classification columns, capped at `k * 3`. -/
def likePass (incidents : List Incident) (hazard_label : String) (k : ℕ) : List ℕ :=
  ((incidents.filter (fun r =>
      sqlLike r.event_title_pred hazard_label ||
        sqlLike r.source_title_pred hazard_label)).take (k * 3)).map
    (fun r => r.id)

/-- Step 3 of `retrieve_narratives`: the category-expansion pass; skipped
when no category is given or the expansion list is empty. -/
def categoryPass (incidents : List Incident) (category : Option String) (k : ℕ) : List ℕ :=
  match category with
  | none => []
  | some c =>
    let expansions := get_category_expansion (some c)
    if expansions.isEmpty then []
    else
      ((incidents.filter (fun r => expansions.any (fun cl => matchesClause r cl))).take
          (k * 3)).map (fun r => r.id)

/-- `SELECT ... ORDER BY CASE WHEN incident_outcome = 1 THEN 0 ELSE 1 END,
dafw_num_away DESC`: fatal rows first, then days away descending. -/
def fatalRank (r : Incident) : ℕ := if r.incident_outcome = some 1 then 0 else 1

def retrievalOrder (a b : Incident) : Prop :=
  fatalRank a < fatalRank b ∨
    (fatalRank a = fatalRank b ∧ b.dafw_num_away ≤ a.dafw_num_away)

instance : DecidableRel retrievalOrder := fun a b =>
  inferInstanceAs (Decidable (fatalRank a < fatalRank b ∨
    (fatalRank a = fatalRank b ∧ b.dafw_num_away ≤ a.dafw_num_away)))

instance : IsTotal Incident retrievalOrder :=
  ⟨fun a b => by unfold retrievalOrder; omega⟩

instance : IsTrans Incident retrievalOrder :=
  ⟨fun a b c hab hbc => by unfold retrievalOrder at *; omega⟩

/-- One retrieval result row (`EvidenceResult`): the dict built per selected
record at the end of `retrieve_narratives`. -/
structure EvidenceResult where
  what_happened : String
  injury_description : String
  object_involved : String
  location : String
  outcome : String
  dafw_days : ℕ
  event_type : String
  source : String
  nature_of_injury : String
  body_part : String
  year : ℕ
  is_fatal : Bool
  relevance_score : ℚ
  deriving Repr, DecidableEq

/-- Builds one result dict, including the confidence heuristic: base 0.5,
+0.3 if fatal, +0.1 if more than 30 days away else +0.05 if any days away,
+0.1 if the id came from the FTS pass, +0.05 if it came from the
classification `LIKE` pass, capped at 1.0. -/
def mkResult (fts_rowids like_rowids : List ℕ) (r : Incident) : EvidenceResult :=
  { what_happened := r.nar_what_happened
    injury_description := r.nar_injury_illness
    object_involved := r.nar_object_substance
    location := r.incident_location
    outcome := format_outcome r.incident_outcome r.dafw_num_away r.djtr_num_tr
    dafw_days := r.dafw_num_away
    event_type := r.event_title_pred
    source := r.source_title_pred
    nature_of_injury := r.nature_title_pred
    body_part := r.part_title_pred
    year := r.year_filing_for
    is_fatal := decide (r.incident_outcome = some 1)
    relevance_score :=
      min 1 ((0.5 : ℚ) + (if r.incident_outcome = some 1 then 0.3 else 0) +
        (if 30 < r.dafw_num_away then 0.1 else if 0 < r.dafw_num_away then 0.05 else 0) +
        (if r.id ∈ fts_rowids then 0.1 else 0) +
        (if r.id ∈ like_rowids then 0.05 else 0)) }

/-- Steps 1-4 of `retrieve_narratives` up to the final `SELECT`: union of the
three candidate id sets (dedup by id), empty union short-circuiting to no
rows, otherwise the matching rows ordered fatal-first then days-away
descending and truncated to `k`. -/
def selectedSorted (incidents : List Incident)
    (ftsSearch : String → ℕ → Except Unit (List ℕ)) (hazard_label : String)
    (category : Option String) (k : ℕ) : List Incident :=
  let all_rowids := (ftsPass incidents ftsSearch hazard_label k ++
    likePass incidents hazard_label k ++ categoryPass incidents category k).dedup
  if all_rowids.isEmpty then []
  else
    (List.insertionSort retrievalOrder
        (incidents.filter (fun r => decide (r.id ∈ all_rowids)))).take k

/-- The result list of `retrieve_narratives` on a reachable corpus. -/
def retrieveList (incidents : List Incident)
    (ftsSearch : String → ℕ → Except Unit (List ℕ)) (hazard_label : String)
    (category : Option String) (k : ℕ) : List EvidenceResult :=
  (selectedSorted incidents ftsSearch hazard_label category k).map
    (mkResult (ftsPass incidents ftsSearch hazard_label k)
      (likePass incidents hazard_label k))

/-- `retrieve_narratives` from `rag_retriever.py`: raises (`Except.error`)
exactly when the database is unreachable (`db = none`, the
`FileNotFoundError` branch). -/
def retrieve_narratives (db : Option (List Incident))
    (ftsSearch : String → ℕ → Except Unit (List ℕ)) (hazard_label : String)
    (category : Option String) (k : ℕ) : Except String (List EvidenceResult) :=
  match db with
  | none => .error "Database not found"
  | some incidents => .ok (retrieveList incidents ftsSearch hazard_label category k)

lemma retrievalOrder_imp (f l : List ℕ) (a b : Incident) (h : retrievalOrder a b) :
    ((mkResult f l b).is_fatal = true → (mkResult f l a).is_fatal = true) ∧
      ((mkResult f l a).is_fatal = (mkResult f l b).is_fatal →
        (mkResult f l b).dafw_days ≤ (mkResult f l a).dafw_days) := by
  have hfa : (mkResult f l a).is_fatal = decide (a.incident_outcome = some 1) := rfl
  have hfb : (mkResult f l b).is_fatal = decide (b.incident_outcome = some 1) := rfl
  have hda : (mkResult f l a).dafw_days = a.dafw_num_away := rfl
  have hdb : (mkResult f l b).dafw_days = b.dafw_num_away := rfl
  rw [hfa, hfb, hda, hdb]
  by_cases ha : a.incident_outcome = some 1 <;>
    by_cases hb : b.incident_outcome = some 1 <;>
      rcases h with h | ⟨h, hd⟩ <;>
        simp_all [retrievalOrder, fatalRank]

/-- C6: for every corpus, lexical engine, label, optional category and k, the
list returned by `retrieve_narratives` has at most k results, every fatal
incident precedes every non-fatal one (irrespective of confidence score),
and within the same fatality status days away from work are descending. -/
theorem retrieve_ordering (incidents : List Incident)
    (ftsSearch : String → ℕ → Except Unit (List ℕ)) (hazard_label : String)
    (category : Option String) (k : ℕ) :
    (retrieveList incidents ftsSearch hazard_label category k).length ≤ k ∧
      (retrieveList incidents ftsSearch hazard_label category k).Pairwise
        (fun a b => (b.is_fatal = true → a.is_fatal = true) ∧
          (a.is_fatal = b.is_fatal → b.dafw_days ≤ a.dafw_days)) := by
  constructor
  · rw [retrieveList, List.length_map]
    simp only [selectedSorted]
    split
    · simp
    · rw [List.length_take]
      exact min_le_left _ _
  · rw [retrieveList, List.pairwise_map]
    simp only [selectedSorted]
    split
    · exact List.Pairwise.nil
    · have hsorted : List.Pairwise retrievalOrder
          (List.insertionSort retrievalOrder
            (incidents.filter (fun r => decide (r.id ∈
              (ftsPass incidents ftsSearch hazard_label k ++
                likePass incidents hazard_label k ++
                categoryPass incidents category k).dedup)))) :=
        List.sorted_insertionSort retrievalOrder _
      have htake := List.Pairwise.sublist (List.take_sublist k _) hsorted
      exact htake.imp (fun h => retrievalOrder_imp _ _ _ _ h)

/-- C6 (witness): a concrete instance of the bound and the ordering. -/
theorem retrieve_ordering_witness :
    (retrieveList [] (fun _ _ => Except.ok []) "floor hole" none 3).length ≤ 3 ∧
      (retrieveList [] (fun _ _ => Except.ok []) "floor hole" none 3).Pairwise
        (fun a b => (b.is_fatal = true → a.is_fatal = true) ∧
          (a.is_fatal = b.is_fatal → b.dafw_days ≤ a.dafw_days)) :=
  retrieve_ordering [] (fun _ _ => Except.ok []) "floor hole" none 3

/-- A fatal incident with recorded days away that only the category pass can
find: the discriminating input for the confidence-score claim. -/
def chemIncident : Incident :=
  { id := 1, year_filing_for := 2023, incident_outcome := some 1,
    dafw_num_away := 40, djtr_num_tr := 0,
    nar_what_happened := "Worker inhaled fumes", nar_before_incident := "Cleaning a tank",
    incident_location := "Plant floor", nar_injury_illness := "Poisoning",
    nar_object_substance := "Solvent", incident_description := "Acute exposure",
    event_title_pred := "Exposure to harmful substances",
    source_title_pred := "Chemical products", nature_title_pred := "Poisoning",
    part_title_pred := "Body systems" }

def okEmptyFts : String → ℕ → Except Unit (List ℕ) := fun _ _ => Except.ok []

lemma chem_retrieve_eval :
    retrieveList [chemIncident] okEmptyFts "zzz" (some "Chemical Hazard") 3 =
      [mkResult [] [] chemIncident] := by
  rw [retrieveList,
    show selectedSorted [chemIncident] okEmptyFts "zzz" (some "Chemical Hazard") 3 =
      [chemIncident] by decide]
  rfl

/-- C7 (counterexample): a fatal incident with 40 recorded days away found
only via the category pass gets confidence 0.5 + 0.3 + 0.1 = 0.9, not the
0.8 the claim states — the days-away bonus also applies to fatal records. -/
theorem confidence_category_fatal_counterexample :
    retrieveList [chemIncident] okEmptyFts "zzz" (some "Chemical Hazard") 3 =
        [mkResult [] [] chemIncident] ∧
      (mkResult [] [] chemIncident).is_fatal = true ∧
      ftsPass [chemIncident] okEmptyFts "zzz" 3 = [] ∧
      likePass [chemIncident] "zzz" 3 = [] ∧
      categoryPass [chemIncident] (some "Chemical Hazard") 3 = [1] ∧
      (mkResult [] [] chemIncident).relevance_score = 0.9 ∧ (0.9 : ℚ) ≠ 0.8 := by
  refine ⟨chem_retrieve_eval, by decide, rfl, by decide, by decide, ?_, by norm_num⟩
  norm_num [mkResult, chemIncident, min_def]

/-- C7 (amended): the confidence of every selected record equals base 0.5, plus
0.3 if fatal, plus 0.1 if days away exceed 30 or else 0.05 if positive, plus
0.1 for a lexical-pass hit and 0.05 for a classification-pass hit, clipped
to 1.0 — hence always within [0.5, 1] ⊆ [0, 1]; a fatal incident with no
recorded days away found by neither the lexical nor the classification pass
gets exactly 0.8. -/
theorem confidence_formula (incidents : List Incident)
    (ftsSearch : String → ℕ → Except Unit (List ℕ)) (hazard_label : String)
    (category : Option String) (k : ℕ) :
    ∀ r ∈ retrieveList incidents ftsSearch hazard_label category k,
      (1 / 2 ≤ r.relevance_score ∧ r.relevance_score ≤ 1) ∧
        ∃ inc ∈ incidents,
          r = mkResult (ftsPass incidents ftsSearch hazard_label k)
              (likePass incidents hazard_label k) inc ∧
            r.relevance_score = min 1 ((0.5 : ℚ) +
              (if inc.incident_outcome = some 1 then 0.3 else 0) +
              (if 30 < inc.dafw_num_away then 0.1
                else if 0 < inc.dafw_num_away then 0.05 else 0) +
              (if inc.id ∈ ftsPass incidents ftsSearch hazard_label k then 0.1 else 0) +
              (if inc.id ∈ likePass incidents hazard_label k then 0.05 else 0)) ∧
            (inc.incident_outcome = some 1 → inc.dafw_num_away = 0 →
              inc.id ∉ ftsPass incidents ftsSearch hazard_label k →
              inc.id ∉ likePass incidents hazard_label k →
              r.relevance_score = 0.8) := by
  intro r hr
  rw [retrieveList, List.mem_map] at hr
  obtain ⟨inc, hincmem, rfl⟩ := hr
  have hincs : inc ∈ incidents := by
    simp only [selectedSorted] at hincmem
    split at hincmem
    · simp at hincmem
    · have h1 := List.mem_of_mem_take hincmem
      rw [List.mem_insertionSort] at h1
      exact (List.mem_filter.1 h1).1
  have h1 : (0 : ℚ) ≤ (if inc.incident_outcome = some 1 then (0.3 : ℚ) else 0) := by
    split <;> norm_num
  have h2 : (0 : ℚ) ≤ (if 30 < inc.dafw_num_away then (0.1 : ℚ)
      else if 0 < inc.dafw_num_away then 0.05 else 0) := by
    split
    · norm_num
    · split <;> norm_num
  have h3 : (0 : ℚ) ≤
      (if inc.id ∈ ftsPass incidents ftsSearch hazard_label k then (0.1 : ℚ) else 0) := by
    split <;> norm_num
  have h4 : (0 : ℚ) ≤
      (if inc.id ∈ likePass incidents hazard_label k then (0.05 : ℚ) else 0) := by
    split <;> norm_num
  refine ⟨⟨le_min (by norm_num) (by linarith), min_le_left _ _⟩,
    inc, hincs, rfl, rfl, ?_⟩
  intro hfatal hdafw hnf hnl
  show min 1 ((0.5 : ℚ) +
      (if inc.incident_outcome = some 1 then 0.3 else 0) +
      (if 30 < inc.dafw_num_away then 0.1
        else if 0 < inc.dafw_num_away then 0.05 else 0) +
      (if inc.id ∈ ftsPass incidents ftsSearch hazard_label k then 0.1 else 0) +
      (if inc.id ∈ likePass incidents hazard_label k then 0.05 else 0)) = 0.8
  rw [hfatal, hdafw, if_pos rfl, if_neg hnf, if_neg hnl]
  norm_num [min_def]

/-- C7 (witness). -/
theorem confidence_formula_witness :
    1 / 2 ≤ (mkResult [] [] chemIncident).relevance_score ∧
      (mkResult [] [] chemIncident).relevance_score ≤ 1 :=
  (confidence_formula [chemIncident] okEmptyFts "zzz" (some "Chemical Hazard") 3
    (mkResult [] [] chemIncident)
    (by rw [chem_retrieve_eval]; exact List.mem_singleton.mpr rfl)).1

/-- C8 (counterexample): an unmatched category gets the empty expansion
list from `get_category_expansion` — not a single passthrough predicate —
and so does a fire/explosion category, which the taxonomy of the expander lacks
altogether. -/
theorem expander_fallback_counterexample :
    get_category_expansion (some "zebra") = [] ∧
      (get_category_expansion (some "zebra")).length ≠ 1 ∧
      get_category_expansion (some "Fire Hazard") = [] := by
  refine ⟨by decide, by decide, by decide⟩

/-- C8 (amended): the retriever expander `get_category_expansion` maps a
case-insensitive category over the taxonomy fall / electrical / struck-or-hit
/ caught-or-compression / chemical / slip-or-trip to fixed ordered clause
lists and yields the empty list for anything else (including fire); the
scorer filter `get_category_filter` additionally has a fire/explosion branch and
falls back to a passthrough predicate on the event-type field. -/
theorem category_mapping (cat : String) :
    (strContains (lowerStr cat) "fall" = true →
        get_category_expansion (some cat) =
            [⟨"event_title_pred", "fall"⟩, ⟨"source_title_pred", "ladder"⟩,
              ⟨"source_title_pred", "scaffold"⟩, ⟨"source_title_pred", "roof"⟩] ∧
          get_category_filter cat = .like "event_title_pred" "fall") ∧
      (strContains (lowerStr cat) "fall" = false →
        strContains (lowerStr cat) "electric" = true →
        get_category_expansion (some cat) =
            [⟨"event_title_pred", "contact with electric"⟩,
              ⟨"event_title_pred", "contact with wiring"⟩,
              ⟨"source_title_pred", "electric"⟩, ⟨"source_title_pred", "wiring"⟩,
              ⟨"source_title_pred", "power line"⟩,
              ⟨"nar_what_happened", "electrocuted"⟩,
              ⟨"nar_what_happened", "electric shock"⟩] ∧
          get_category_filter cat =
            .disj (.like "event_title_pred" "contact with electric")
              (.disj (.like "event_title_pred" "contact with wiring")
                (.disj (.like "source_title_pred" "electric")
                  (.disj (.like "source_title_pred" "wiring")
                    (.disj (.like "source_title_pred" "power line")
                      (.disj (.like "nar_what_happened" "electrocuted")
                        (.like "nar_what_happened" "electric shock"))))))) ∧
      (strContains (lowerStr cat) "fall" = false →
        strContains (lowerStr cat) "electric" = false →
        (strContains (lowerStr cat) "struck" || strContains (lowerStr cat) "hit") = true →
        get_category_expansion (some cat) =
          [⟨"event_title_pred", "struck"⟩, ⟨"event_title_pred", "hit"⟩]) ∧
      (strContains (lowerStr cat) "fall" = false →
        strContains (lowerStr cat) "electric" = false →
        strContains (lowerStr cat) "struck" = true →
        get_category_filter cat = .like "event_title_pred" "struck") ∧
      (strContains (lowerStr cat) "fall" = false →
        strContains (lowerStr cat) "electric" = false →
        (strContains (lowerStr cat) "struck" || strContains (lowerStr cat) "hit") = false →
        (strContains (lowerStr cat) "caught" || strContains (lowerStr cat) "compress") = true →
        get_category_expansion (some cat) =
          [⟨"event_title_pred", "caught"⟩, ⟨"event_title_pred", "compress"⟩]) ∧
      (strContains (lowerStr cat) "fall" = false →
        strContains (lowerStr cat) "electric" = false →
        strContains (lowerStr cat) "struck" = false →
        (strContains (lowerStr cat) "caught" || strContains (lowerStr cat) "compress") = true →
        get_category_filter cat =
          .disj (.like "event_title_pred" "caught") (.like "event_title_pred" "compress")) ∧
      (strContains (lowerStr cat) "fall" = false →
        strContains (lowerStr cat) "electric" = false →
        (strContains (lowerStr cat) "struck" || strContains (lowerStr cat) "hit") = false →
        (strContains (lowerStr cat) "caught" || strContains (lowerStr cat) "compress") = false →
        strContains (lowerStr cat) "chemical" = true →
        get_category_expansion (some cat) =
          [⟨"event_title_pred", "expos"⟩, ⟨"source_title_pred", "chemical"⟩]) ∧
      (strContains (lowerStr cat) "fall" = false →
        strContains (lowerStr cat) "electric" = false →
        strContains (lowerStr cat) "struck" = false →
        (strContains (lowerStr cat) "caught" || strContains (lowerStr cat) "compress") = false →
        strContains (lowerStr cat) "chemical" = true →
        get_category_filter cat =
          .conj (.like "event_title_pred" "expos")
            (.disj (.like "source_title_pred" "chemical")
              (.like "source_title_pred" "toxic"))) ∧
      (strContains (lowerStr cat) "fall" = false →
        strContains (lowerStr cat) "electric" = false →
        (strContains (lowerStr cat) "struck" || strContains (lowerStr cat) "hit") = false →
        (strContains (lowerStr cat) "caught" || strContains (lowerStr cat) "compress") = false →
        strContains (lowerStr cat) "chemical" = false →
        (strContains (lowerStr cat) "slip" || strContains (lowerStr cat) "trip") = true →
        get_category_expansion (some cat) =
          [⟨"event_title_pred", "slip"⟩, ⟨"event_title_pred", "trip"⟩,
            ⟨"event_title_pred", "same level"⟩]) ∧
      (strContains (lowerStr cat) "fall" = false →
        strContains (lowerStr cat) "electric" = false →
        strContains (lowerStr cat) "struck" = false →
        (strContains (lowerStr cat) "caught" || strContains (lowerStr cat) "compress") = false →
        strContains (lowerStr cat) "chemical" = false →
        (strContains (lowerStr cat) "slip" || strContains (lowerStr cat) "trip") = true →
        get_category_filter cat =
          .disj (.like "event_title_pred" "fall on same level")
            (.disj (.like "event_title_pred" "slip") (.like "event_title_pred" "trip"))) ∧
      (strContains (lowerStr cat) "fall" = false →
        strContains (lowerStr cat) "electric" = false →
        (strContains (lowerStr cat) "struck" || strContains (lowerStr cat) "hit") = false →
        (strContains (lowerStr cat) "caught" || strContains (lowerStr cat) "compress") = false →
        strContains (lowerStr cat) "chemical" = false →
        (strContains (lowerStr cat) "slip" || strContains (lowerStr cat) "trip") = false →
        get_category_expansion (some cat) = []) ∧
      (strContains (lowerStr cat) "fall" = false →
        strContains (lowerStr cat) "electric" = false →
        strContains (lowerStr cat) "struck" = false →
        (strContains (lowerStr cat) "caught" || strContains (lowerStr cat) "compress") = false →
        strContains (lowerStr cat) "chemical" = false →
        (strContains (lowerStr cat) "slip" || strContains (lowerStr cat) "trip") = false →
        strContains (lowerStr cat) "fire" = true →
        get_category_filter cat =
          .disj (.like "event_title_pred" "fire")
            (.disj (.like "event_title_pred" "explosion")
              (.like "event_title_pred" "burn"))) ∧
      (strContains (lowerStr cat) "fall" = false →
        strContains (lowerStr cat) "electric" = false →
        strContains (lowerStr cat) "struck" = false →
        (strContains (lowerStr cat) "caught" || strContains (lowerStr cat) "compress") = false →
        strContains (lowerStr cat) "chemical" = false →
        (strContains (lowerStr cat) "slip" || strContains (lowerStr cat) "trip") = false →
        strContains (lowerStr cat) "fire" = false →
        get_category_filter cat = .like "event_title_pred" cat) := by
  refine ⟨?_, ?_, ?_, ?_, ?_, ?_, ?_, ?_, ?_, ?_, ?_, ?_, ?_⟩ <;>
    · intros
      simp_all [get_category_expansion, get_category_filter]

/-- C8 (witness). -/
theorem category_mapping_witness :
    (get_category_expansion (some "Fall Hazard") =
        [⟨"event_title_pred", "fall"⟩, ⟨"source_title_pred", "ladder"⟩,
          ⟨"source_title_pred", "scaffold"⟩, ⟨"source_title_pred", "roof"⟩] ∧
      get_category_filter "Fall Hazard" = .like "event_title_pred" "fall") ∧
      get_category_expansion (some "zebra") = [] ∧
      get_category_filter "zebra" = .like "event_title_pred" "zebra" :=
  ⟨(category_mapping "Fall Hazard").1 (by decide),
    (category_mapping "zebra").2.2.2.2.2.2.2.2.2.2.1 (by decide) (by decide) (by decide)
      (by decide) (by decide) (by decide),
    (category_mapping "zebra").2.2.2.2.2.2.2.2.2.2.2.2 (by decide) (by decide) (by decide)
      (by decide) (by decide) (by decide) (by decide)⟩

/-- C9 (counterexample): the malformed-query fallback does not search the
same fields as the lexical pass — the FTS5 index covers nine columns, the
`LIKE` fallback only the six free-text narrative columns, omitting the
event-type, source and nature classification columns. -/
theorem fallback_fields_counterexample :
    fallbackFields ≠ ftsIndexedFields ∧ ftsIndexedFields.length = 9 ∧
      fallbackFields.length = 6 :=
  ⟨by decide, rfl, rfl⟩

/-- C9 (amended): `retrieve_narratives` errors exactly when the corpus store
is unreachable; an empty candidate union yields the empty result list; a
malformed lexical query degrades locally — with no error — to an OR of
substring matches with the same 3k cap over the six narrative fields, a
strict subset of the nine FTS-indexed fields. -/
theorem retrieve_error_recovery (incidents : List Incident)
    (ftsSearch : String → ℕ → Except Unit (List ℕ)) (hazard_label : String)
    (category : Option String) (k : ℕ) :
    retrieve_narratives (some incidents) ftsSearch hazard_label category k =
        Except.ok (retrieveList incidents ftsSearch hazard_label category k) ∧
      (∀ (db : Option (List Incident)) (e : String),
        retrieve_narratives db ftsSearch hazard_label category k = Except.error e →
          db = none) ∧
      ((ftsPass incidents ftsSearch hazard_label k ++ likePass incidents hazard_label k ++
            categoryPass incidents category k).dedup = [] →
        retrieveList incidents ftsSearch hazard_label category k = []) ∧
      (∀ e : Unit, ftsSearch (build_fts_query hazard_label) (k * 3) = Except.error e →
        ftsPass incidents ftsSearch hazard_label k =
          ((incidents.filter (fun r => fallbackMatch r hazard_label)).take (k * 3)).map
            (fun r => r.id)) ∧
      List.Sublist fallbackFields ftsIndexedFields := by
  refine ⟨rfl, ?_, ?_, ?_, ?_⟩
  · intro db e h
    cases db with
    | none => rfl
    | some l => simp [retrieve_narratives] at h
  · intro h
    rw [retrieveList]
    simp only [selectedSorted, h]
    simp
  · intro e h
    rw [ftsPass, h]
  · rw [show ftsIndexedFields = fallbackFields ++
      ["event_title_pred", "source_title_pred", "nature_title_pred"] from rfl]
    exact List.sublist_append_left _ _

def failFts : String → ℕ → Except Unit (List ℕ) := fun _ _ => Except.error ()

/-- C9 (witness): a failing lexical engine triggers the substring fallback
with no error, and an empty candidate union yields the empty result list. -/
theorem retrieve_error_recovery_witness :
    ftsPass [chemIncident] failFts "fumes" 3 =
        (([chemIncident].filter (fun r => fallbackMatch r "fumes")).take (3 * 3)).map
          (fun r => r.id) ∧
      retrieveList [] okEmptyFts "floor" none 2 = [] :=
  ⟨(retrieve_error_recovery [chemIncident] failFts "fumes" none 3).2.2.2.1 () rfl,
    (retrieve_error_recovery [] okEmptyFts "floor" none 2).2.2.1 (by decide)⟩

end Vesta
